import Mathlib

/-!
Shallow embedding of `cargo-debug` (src/main.rs): a build-and-debug
launcher that runs `cargo build --message-format=json`, collects compiler
artifact records, selects one executable, and launches a debugger on it.

The definitions below are translated directly from `src/main.rs`; each is
annotated with the lines of the source it embeds.
-/

namespace CargoDebug

/-- A compilation target, as carried by a `cargo_metadata` compiler-artifact
message (`artifact.target`); only the `name` field is consulted by the code. -/
structure Target where
  name : String
deriving DecidableEq, Repr

instance : Inhabited Target := ⟨⟨""⟩⟩

/-- One compiler-artifact message (`Message::CompilerArtifact`): a target
descriptor and an optional executable path. -/
structure Artifact where
  target : Target
  executable : Option String
deriving DecidableEq, Repr

/-- The parsed `debug` subcommand matches (main.rs lines 68-79): positional
`debugger`, `--release`, `--manifest-path`, `--bin`, `--example`, and the
trailing `options`.  `clap`'s `get_many` yields `none` when no trailing
arguments were given, and a non-empty list otherwise. -/
structure BuildRequest where
  release : Bool
  manifest : Option String
  bin : Option String
  exampleArg : Option String
deriving DecidableEq, Repr

/-- The cargo invocation argument list synthesized in main.rs lines 96-116:
`["build", "--message-format=json"]`, then `--release` if requested, then
`--manifest-path <m>`, `--bin <b>`, `--example <e>` for each provided value. -/
def cargoArgs (r : BuildRequest) : List String :=
  ["build", "--message-format=json"]
    ++ (if r.release then ["--release"] else [])
    ++ (match r.manifest with
        | some m => ["--manifest-path", m]
        | none => [])
    ++ (match r.bin with
        | some b => ["--bin", b]
        | none => [])
    ++ (match r.exampleArg with
        | some e => ["--example", e]
        | none => [])

/-- The literal tokens that `cargoArgs` itself appends (as opposed to the
user-supplied manifest path, bin name and example name). -/
def cargoFixedTokens : List String :=
  ["build", "--message-format=json", "--release", "--manifest-path", "--bin",
   "--example"]

/-- The part of `cargoArgs` after the leading
`["build", "--message-format=json"]`; used to reason about the shape of the
synthesized invocation. -/
def cargoTail (r : BuildRequest) : List String :=
  (if r.release then ["--release"] else [])
    ++ (match r.manifest with
        | some m => ["--manifest-path", m]
        | none => [])
    ++ (match r.bin with
        | some b => ["--bin", b]
        | none => [])
    ++ (match r.exampleArg with
        | some e => ["--example", e]
        | none => [])

/-- Build exit-status handling (main.rs lines 139-143): if the cargo child
reports an exit code and that code is non-zero, the tool exits with that
code (`some code`); otherwise (code zero, or no code at all, e.g. killed by a
signal) execution continues (`none`). -/
def buildExitCheck (code : Option Int) : Option Int :=
  match code with
  | some c => if c ≠ 0 then some c else none
  | none => none

/-- Filtering of artifacts down to those with an executable
(main.rs lines 150-159): `filter_map` keeping `(target, executable)` pairs. -/
def binariesOf (artifacts : List Artifact) : List (Target × String) :=
  artifacts.filterMap (fun a =>
    match a.executable with
    | some executable => some (a.target, executable)
    | none => none)

/-- Outcome of the artifact-selection step (main.rs lines 161-184): either a
selected executable path, or a printed message followed by
`std::process::exit(1)`. -/
inductive SelectResult where
  | selected (path : String)
  | fail (message : String)
deriving DecidableEq, Repr

/-- The disambiguation message printed when no `--bin` was given and the
binaries list does not have exactly one entry (main.rs lines 179-181). -/
def ambiguousMsg : String :=
  "More than one binary artifact produced, please explicitly specify the binary."

/-- Artifact selection (main.rs lines 161-184).  With `--bin NAME`: find the
first record whose target name equals NAME exactly, else fail naming NAME.
Without `--bin`: select the single entry if the list has length one, else
fail with the disambiguation message. -/
def selectBinary (binArg : Option String) (binaries : List (Target × String)) :
    SelectResult :=
  match binArg with
  | some binary =>
      match binaries.findSome? (fun te =>
          if te.1.name = binary then some te.2 else none) with
      | some exe => .selected exe
      | none => .fail ("Could not find binary artifact " ++ binary)
  | none =>
      if binaries.length = 1 then
        .selected binaries.headI.2
      else
        .fail ambiguousMsg

/-- The platform families distinguished by `cfg!(unix)` / `cfg!(windows)` in
main.rs lines 191-197. -/
inductive Platform where
  | unix
  | windows
  | other
deriving DecidableEq, Repr

/-- The default debugger when the positional argument is absent
(main.rs lines 188-198): `gdb` on unix, `devenv` on windows, and a panic
(`none`) on any other platform. -/
def defaultDebugger (p : Platform) : Option String :=
  match p with
  | .unix => some "gdb"
  | .windows => some "devenv"
  | .other => none

/-- The values accepted by the `debugger` positional argument's
`PossibleValuesParser` (main.rs line 71). -/
def debuggerPossibleValues : List String := ["gdb", "devenv"]

/-- Whether the CLI accepts `s` as the `debugger` positional argument
(main.rs lines 69-71). -/
def acceptsDebuggerValue (s : String) : Bool :=
  debuggerPossibleValues.contains s

/-- Trailing user options as clap delivers them (main.rs line 88):
`get_many` returns `none` when no trailing arguments were supplied, and the
non-empty list of them otherwise. -/
def optionsOfTrailing (trailing : List String) : Option (List String) :=
  if trailing.isEmpty then none else some trailing

/-- The gdb argument list (main.rs lines 204-227): `--args` is pushed only
when trailing options are present, then the binary path, then the options. -/
def gdbDebugArgs (bin : String) (options : Option (List String)) : List String :=
  (if options.isSome then ["--args"] else [])
    ++ [bin]
    ++ (match options with
        | some opts => opts
        | none => [])

/-- The lldb argument list (main.rs lines 228-248): `--file`, the binary
path, then `--` and the options when trailing options are present. -/
def lldbDebugArgs (bin : String) (options : Option (List String)) : List String :=
  ["--file", bin]
    ++ (match options with
        | some opts => "--" :: opts
        | none => [])

/-- The gdbserver argument list (main.rs lines 249-267): the binary path,
then the options directly. -/
def gdbserverDebugArgs (bin : String) (options : Option (List String)) :
    List String :=
  [bin]
    ++ (match options with
        | some opts => opts
        | none => [])

/-- The devenv argument list (main.rs lines 282-290): `/DebugExe`, the
binary path, then the options. -/
def devenvDebugArgs (bin : String) (options : Option (List String)) :
    List String :=
  ["/DebugExe", bin]
    ++ (match options with
        | some opts => opts
        | none => [])

/-- A fully formed debugger launch: the debugger executable path and its
argument list (main.rs lines 200-201, 329-330). -/
structure LaunchSpec where
  debugPath : String
  debugArgs : List String
deriving DecidableEq, Repr

/-- How an invocation of the tool ends, once cargo's stdout has been drained:
an early `std::process::exit` with a code, a `panic!`, or a debugger launch
followed by the tool's own final exit code (main.rs returns `Ok(())`, i.e.
exit code 0, after the debugger exits; the debugger's status is dropped). -/
inductive ToolOutcome where
  | exit (code : Int)
  | panicked
  | launched (spec : LaunchSpec) (finalExit : Int)
deriving DecidableEq, Repr

/-- The sequential phase of `main` after cargo's message stream has been
parsed into `artifacts` (main.rs lines 134-338): check the build exit code,
select the binary, resolve the debugger (explicit argument or platform
default), synthesize the debugger command, run it, and exit 0.
`vsInfo` is the product path found by the `vswhere` query in the `devenv`
arm (`none` when no matching Visual Studio installation exists). -/
def runDebugPhase (p : Platform) (binArg : Option String)
    (options : Option (List String)) (debuggerArg : Option String)
    (buildCode : Option Int) (artifacts : List Artifact)
    (vsInfo : Option String) : ToolOutcome :=
  match buildExitCheck buildCode with
  | some c => .exit c
  | none =>
      match selectBinary binArg (binariesOf artifacts) with
      | .fail _ => .exit 1
      | .selected bin =>
          let debugger : Option String :=
            match debuggerArg with
            | some dbg => some dbg
            | none => defaultDebugger p
          match debugger with
          | none => .panicked
          | some "gdb" => .launched ⟨"gdb", gdbDebugArgs bin options⟩ 0
          | some "lldb" => .launched ⟨"lldb", lldbDebugArgs bin options⟩ 0
          | some "gdbserver" =>
              .launched ⟨"gdbserver", gdbserverDebugArgs bin options⟩ 0
          | some "devenv" =>
              match vsInfo with
              | some productPath =>
                  .launched ⟨productPath, devenvDebugArgs bin options⟩ 0
              | none => .exit 1
          | some _ => .exit 1

/-- The debounce window used by the Ctrl-C handler
(`Duration::from_secs(1)`, main.rs line 321), in nanoseconds. -/
def debounceWindowNs : Nat := 1000000000

/-- What one invocation of the Ctrl-C handler does (main.rs lines 317-326):
it exits the process with code 0, or records a new last-interrupt timestamp
and lets the process continue. -/
inductive HandlerAction where
  | exitProcess
  | recordTimestamp
deriving DecidableEq, Repr

/-- One invocation of the Ctrl-C handler (main.rs lines 317-326), with
timestamps in nanoseconds.  `prev` is the stored last-interrupt time and
`now` the current time.  If `now - prev` exceeds one second the process
exits with code 0; otherwise the stored timestamp is updated to `now`.
Returns the action taken and the stored timestamp afterwards. -/
def ctrlcHandlerStep (prev now : Nat) : HandlerAction × Nat :=
  if debounceWindowNs < now - prev then
    (.exitProcess, prev)
  else
    (.recordTimestamp, now)

/-! ## Theorems about the claims -/

/-- C1: the claim says an interrupt arriving more than the one-second
debounce window after the previous one is absorbed, while two interrupts
within the window terminate the tool.  The handler in main.rs lines 317-326
does the opposite: with the last interrupt recorded at t = 1s, an interrupt
at t = 3s (2 seconds later, outside the window) makes the handler call
`std::process::exit(0)`, and an interrupt at t = 1.5s (within the window)
is absorbed, merely updating the stored timestamp. -/
theorem c1_handler_inverted_at_failing_input :
    ctrlcHandlerStep 1000000000 3000000000 = (.exitProcess, 1000000000)
    ∧ ctrlcHandlerStep 1000000000 1500000000 = (.recordTimestamp, 1500000000) := by
  constructor <;> decide

/-- C2 counterexample: in the stated scenario (one artifact `app` with
executable `/tmp/app`, no `--bin`, no trailing arguments, debugger
defaulting to `gdb`) the synthesized list is `["/tmp/app"]` — the `--args`
flag is only pushed when trailing options exist (main.rs lines 208-210) —
so it is not `["--args", "/tmp/app"]` as the claim states. -/
theorem c2_counterexample :
    runDebugPhase .unix none none none (some 0)
        [⟨⟨"app"⟩, some "/tmp/app"⟩] none
      = .launched ⟨"gdb", ["/tmp/app"]⟩ 0
    ∧ (["/tmp/app"] : List String) ≠ ["--args", "/tmp/app"] := by
  constructor
  · rfl
  · decide

/-- C2 amended: in the stated scenario the synthesized debugger argument
list is exactly `["/tmp/app"]` (no `--args`, since there are no trailing
arguments), the debugger path is `gdb`, and the tool exits with code 0
after the debugger exits. -/
theorem c2_amended_end_to_end :
    runDebugPhase .unix none none none (some 0)
        [⟨⟨"app"⟩, some "/tmp/app"⟩] none
      = .launched ⟨"gdb", ["/tmp/app"]⟩ 0 := by
  rfl

/-- C3 counterexample: the claim says the `debugger` positional argument
accepts `windbg` (among five values), but the possible-values list in
main.rs line 71 is `["gdb", "devenv"]`, so `windbg` (and likewise `lldb`
and `gdbserver`) is rejected by the CLI parser. -/
theorem c3_counterexample :
    acceptsDebuggerValue "windbg" = false
    ∧ acceptsDebuggerValue "lldb" = false
    ∧ acceptsDebuggerValue "gdbserver" = false := by
  decide

/-- C3 amended: the `debugger` positional argument accepts exactly the two
values `gdb` and `devenv`, and when it is absent the default is `gdb` on
unix-like platforms and `devenv` on Windows. -/
theorem c3_amended_accepted_values :
    (∀ s, acceptsDebuggerValue s = true ↔ s = "gdb" ∨ s = "devenv")
    ∧ defaultDebugger .unix = some "gdb"
    ∧ defaultDebugger .windows = some "devenv" := by
  refine ⟨fun s => ?_, rfl, rfl⟩
  simp only [acceptsDebuggerValue, debuggerPossibleValues, List.contains, List.elem]
  cases hg : s == "gdb" <;> cases hd : s == "devenv" <;>
    simp_all [beq_iff_eq, beq_eq_false_iff_ne]

/-- C4: for the `gdb` debugger kind, when trailing user arguments are
present the synthesized list is exactly `--args`, then the binary path,
then the trailing arguments in order; when there are none the list is just
the binary path, with no `--args` flag emitted. -/
theorem c4_gdb_argument_framing (bin : String) (trailing : List String) :
    (trailing ≠ [] →
      gdbDebugArgs bin (optionsOfTrailing trailing) = "--args" :: bin :: trailing)
    ∧ (trailing = [] →
      gdbDebugArgs bin (optionsOfTrailing trailing) = [bin]) := by
  constructor
  · intro h
    cases trailing with
    | nil => exact absurd rfl h
    | cons a as => rfl
  · intro h
    subst h
    rfl

/-- Witness for C4 at the spec's own example: binary `/tmp/app` and
trailing arguments `["-q"]`, and the empty-trailing case. -/
theorem c4_gdb_argument_framing_witness :
    gdbDebugArgs "/tmp/app" (optionsOfTrailing ["-q"])
      = ["--args", "/tmp/app", "-q"]
    ∧ gdbDebugArgs "/tmp/app" (optionsOfTrailing []) = ["/tmp/app"] :=
  ⟨(c4_gdb_argument_framing "/tmp/app" ["-q"]).1 (by decide),
   (c4_gdb_argument_framing "/tmp/app" []).2 rfl⟩

/-- C5: when no `--bin` was given and the artifact records with a non-null
executable form a one-element list, the selector picks that element's
executable path. -/
theorem c5_single_binary_selected (artifacts : List Artifact) (t : Target)
    (e : String) (h : binariesOf artifacts = [(t, e)]) :
    selectBinary none (binariesOf artifacts) = .selected e := by
  rw [h]
  rfl

/-- Witness for C5: one artifact `app` with executable `/tmp/app`. -/
theorem c5_single_binary_selected_witness :
    selectBinary none (binariesOf [⟨⟨"app"⟩, some "/tmp/app"⟩])
      = .selected "/tmp/app" :=
  c5_single_binary_selected [⟨⟨"app"⟩, some "/tmp/app"⟩] ⟨"app"⟩ "/tmp/app" rfl

/-- C6: when no `--bin` was given and the binaries list has zero entries or
more than one, the selector fails with the disambiguation message, and the
whole phase ends in exit code 1 without launching any debugger. -/
theorem c6_ambiguous_exits_one (p : Platform) (options : Option (List String))
    (debuggerArg : Option String) (buildCode : Option Int)
    (artifacts : List Artifact) (vsInfo : Option String)
    (hbuild : buildExitCheck buildCode = none)
    (h : (binariesOf artifacts).length = 0 ∨ 1 < (binariesOf artifacts).length) :
    selectBinary none (binariesOf artifacts) = .fail ambiguousMsg
    ∧ runDebugPhase p none options debuggerArg buildCode artifacts vsInfo
        = .exit 1 := by
  have hne : ¬(binariesOf artifacts).length = 1 := by omega
  have hsel : selectBinary none (binariesOf artifacts) = .fail ambiguousMsg := by
    simp [selectBinary, hne]
  refine ⟨hsel, ?_⟩
  simp [runDebugPhase, hbuild, hsel]

/-- Witness for C6: two artifacts `app` and `app2`, both with executables,
no `--bin`, build exited 0. -/
theorem c6_ambiguous_exits_one_witness :
    selectBinary none
        (binariesOf [⟨⟨"app"⟩, some "/tmp/app"⟩, ⟨⟨"app2"⟩, some "/tmp/app2"⟩])
      = .fail ambiguousMsg
    ∧ runDebugPhase .unix none none none (some 0)
        [⟨⟨"app"⟩, some "/tmp/app"⟩, ⟨⟨"app2"⟩, some "/tmp/app2"⟩] none
      = .exit 1 :=
  c6_ambiguous_exits_one .unix none none (some 0)
    [⟨⟨"app"⟩, some "/tmp/app"⟩, ⟨⟨"app2"⟩, some "/tmp/app2"⟩] none rfl
    (by decide)

/-- When no entry of `binaries` has target name `binary`, the search in
main.rs lines 162-168 comes up empty. -/
theorem findSome?_name_eq_none (binary : String)
    (binaries : List (Target × String))
    (h : ∀ te ∈ binaries, te.1.name ≠ binary) :
    binaries.findSome? (fun te =>
        if te.1.name = binary then some te.2 else none) = none := by
  induction binaries with
  | nil => rfl
  | cons b bs ih =>
      have hb : b.1.name ≠ binary := h b (List.mem_cons_self _ _)
      simp only [List.findSome?, if_neg hb]
      exact ih (fun te hte => h te (List.mem_cons_of_mem _ hte))

/-- When some entry of `binaries` has target name `binary`, the search in
main.rs lines 162-168 returns the executable of such an entry. -/
theorem findSome?_name_finds (binary : String)
    (binaries : List (Target × String))
    (h : ∃ te ∈ binaries, te.1.name = binary) :
    ∃ te ∈ binaries, te.1.name = binary ∧
      binaries.findSome? (fun te =>
          if te.1.name = binary then some te.2 else none) = some te.2 := by
  induction binaries with
  | nil => simp at h
  | cons b bs ih =>
      by_cases hb : b.1.name = binary
      · exact ⟨b, List.mem_cons_self _ _, hb, by simp [List.findSome?, hb]⟩
      · obtain ⟨te, hte, hname⟩ := h
        rcases List.mem_cons.mp hte with h1 | h2
        · exact absurd (h1 ▸ hname) hb
        · obtain ⟨te', hte', hn', hf⟩ := ih ⟨te, h2, hname⟩
          exact ⟨te', List.mem_cons_of_mem _ hte', hn',
            by simp [List.findSome?, hb, hf]⟩

/-- C7: with `--bin NAME`, the selector compares NAME against each record's
target name with exact string equality.  If some record matches, a matching
record's executable is selected; if none matches, it fails with a message
naming NAME, and the whole phase ends in exit code 1. -/
theorem c7_named_selection (binary : String)
    (binaries : List (Target × String)) :
    ((∃ te ∈ binaries, te.1.name = binary) →
      ∃ te ∈ binaries, te.1.name = binary ∧
        selectBinary (some binary) binaries = .selected te.2)
    ∧ ((∀ te ∈ binaries, te.1.name ≠ binary) →
      selectBinary (some binary) binaries
        = .fail ("Could not find binary artifact " ++ binary))
    ∧ (∀ (p : Platform) (options : Option (List String))
        (debuggerArg : Option String) (buildCode : Option Int)
        (artifacts : List Artifact) (vsInfo : Option String),
        buildExitCheck buildCode = none →
        binariesOf artifacts = binaries →
        (∀ te ∈ binaries, te.1.name ≠ binary) →
        runDebugPhase p (some binary) options debuggerArg buildCode artifacts
          vsInfo = .exit 1) := by
  refine ⟨?_, ?_, ?_⟩
  · intro h
    obtain ⟨te, hte, hn, hf⟩ := findSome?_name_finds binary binaries h
    exact ⟨te, hte, hn, by simp [selectBinary, hf]⟩
  · intro h
    simp [selectBinary, findSome?_name_eq_none binary binaries h]
  · intro p options debuggerArg buildCode artifacts vsInfo hbuild hbin h
    have hsel : selectBinary (some binary) binaries
        = .fail ("Could not find binary artifact " ++ binary) := by
      simp [selectBinary, findSome?_name_eq_none binary binaries h]
    simp [runDebugPhase, hbuild, hbin, hsel]

/-- Witness for C7: `--bin tool` finds the entry named `tool`; `--bin App`
does not match the entry named `app` (case-sensitive), fails naming `App`,
and the phase exits 1. -/
theorem c7_named_selection_witness :
    (∃ te ∈ ([(⟨"app"⟩, "/a"), (⟨"tool"⟩, "/t")] : List (Target × String)),
      te.1.name = "tool" ∧
        selectBinary (some "tool") [(⟨"app"⟩, "/a"), (⟨"tool"⟩, "/t")]
          = .selected te.2)
    ∧ selectBinary (some "App") [(⟨"app"⟩, "/a")]
        = .fail ("Could not find binary artifact " ++ "App")
    ∧ runDebugPhase .unix (some "App") none none (some 0)
        [⟨⟨"app"⟩, some "/a"⟩] none = .exit 1 :=
  ⟨(c7_named_selection "tool" [(⟨"app"⟩, "/a"), (⟨"tool"⟩, "/t")]).1
      ⟨(⟨"tool"⟩, "/t"), by decide, rfl⟩,
   (c7_named_selection "App" [(⟨"app"⟩, "/a")]).2.1 (by decide),
   (c7_named_selection "App" [(⟨"app"⟩, "/a")]).2.2 .unix none none (some 0)
      [⟨⟨"app"⟩, some "/a"⟩] none rfl rfl (by decide)⟩

/-- C9: when the build subprocess exits with a non-zero code, the tool
immediately exits with that same code, whatever the artifacts, selected
debugger, or options are — no artifact is selected and no debugger is
launched. -/
theorem c9_build_failure_propagated (p : Platform) (binArg : Option String)
    (options : Option (List String)) (debuggerArg : Option String) (c : Int)
    (artifacts : List Artifact) (vsInfo : Option String) (hc : c ≠ 0) :
    runDebugPhase p binArg options debuggerArg (some c) artifacts vsInfo
      = .exit c := by
  simp [runDebugPhase, buildExitCheck, hc]

/-- Witness for C9: a build that exited with code 101 makes the tool exit
with code 101. -/
theorem c9_build_failure_propagated_witness :
    runDebugPhase .unix none none none (some 101)
        [⟨⟨"app"⟩, some "/tmp/app"⟩] none = .exit 101 :=
  c9_build_failure_propagated .unix none none none 101
    [⟨⟨"app"⟩, some "/tmp/app"⟩] none (by decide)

/-- C10: when the build subprocess terminates without an exit code (killed
by a signal), the check in main.rs lines 139-143 falls through, and the
tool proceeds identically to a build that exited with code 0. -/
theorem c10_no_exit_code_proceeds (p : Platform) (binArg : Option String)
    (options : Option (List String)) (debuggerArg : Option String)
    (artifacts : List Artifact) (vsInfo : Option String) :
    buildExitCheck none = none
    ∧ runDebugPhase p binArg options debuggerArg none artifacts vsInfo
        = runDebugPhase p binArg options debuggerArg (some 0) artifacts
            vsInfo :=
  ⟨rfl, rfl⟩

/-- The synthesized cargo invocation is the fixed leading pair followed by
the request-dependent tail. -/
theorem cargoArgs_eq_shape (r : BuildRequest) :
    cargoArgs r = ["build", "--message-format=json"] ++ cargoTail r := by
  simp [cargoArgs, cargoTail, List.append_assoc]

/-- Membership in the request-dependent tail of the cargo invocation,
characterized field by field. -/
theorem mem_cargoTail (r : BuildRequest) (s : String) :
    s ∈ cargoTail r ↔
      (r.release = true ∧ s = "--release")
      ∨ (∃ m, r.manifest = some m ∧ (s = "--manifest-path" ∨ s = m))
      ∨ (∃ b, r.bin = some b ∧ (s = "--bin" ∨ s = b))
      ∨ (∃ e, r.exampleArg = some e ∧ (s = "--example" ∨ s = e)) := by
  obtain ⟨rel, man, binv, exv⟩ := r
  cases rel <;> cases man <;> cases binv <;> cases exv <;>
    simp [cargoTail] <;> tauto

/-- Neither `build` nor `--message-format=json` occurs in the tail of the
invocation, provided no user-supplied value collides with a fixed token. -/
theorem base_token_not_mem_cargoTail (r : BuildRequest)
    (hm : ∀ m, r.manifest = some m → m ∉ cargoFixedTokens)
    (hb : ∀ b, r.bin = some b → b ∉ cargoFixedTokens)
    (he : ∀ e, r.exampleArg = some e → e ∉ cargoFixedTokens)
    (s : String) (hs : s = "build" ∨ s = "--message-format=json") :
    s ∉ cargoTail r := by
  rcases hs with rfl | rfl <;>
    (rw [mem_cargoTail]
     rintro (⟨_, h⟩ | ⟨m, hm', h | h⟩ | ⟨b, hb', h | h⟩ | ⟨e, he', h | h⟩) <;>
       first
         | exact absurd h (by decide)
         | exact hm m hm' (by rw [← h]; decide)
         | exact hb b hb' (by rw [← h]; decide)
         | exact he e he' (by rw [← h]; decide))

/-- A fixed flag token occurs in the invocation exactly when the request
field that appends it is set, provided no user-supplied value collides
with a fixed token. -/
theorem flag_mem_cargoArgs_iff (r : BuildRequest)
    (hm : ∀ m, r.manifest = some m → m ∉ cargoFixedTokens)
    (hb : ∀ b, r.bin = some b → b ∉ cargoFixedTokens)
    (he : ∀ e, r.exampleArg = some e → e ∉ cargoFixedTokens) :
    ("--release" ∈ cargoArgs r ↔ r.release = true)
    ∧ ("--manifest-path" ∈ cargoArgs r ↔ r.manifest.isSome = true)
    ∧ ("--bin" ∈ cargoArgs r ↔ r.bin.isSome = true)
    ∧ ("--example" ∈ cargoArgs r ↔ r.exampleArg.isSome = true) := by
  have hbase : ∀ s : String, s ∈ cargoArgs r ↔
      (s = "build" ∨ s = "--message-format=json") ∨ s ∈ cargoTail r := by
    intro s
    rw [cargoArgs_eq_shape, List.mem_append]
    simp
  refine ⟨?_, ?_, ?_, ?_⟩
  · rw [hbase, mem_cargoTail]
    constructor
    · rintro ((h | h) | ⟨hrel, _⟩ | ⟨m, hm', h | h⟩ | ⟨b, hb', h | h⟩ |
          ⟨e, he', h | h⟩) <;>
        first
          | exact absurd h (by decide)
          | assumption
          | exact absurd (hm m hm') (by rw [← h]; decide)
          | exact absurd (hb b hb') (by rw [← h]; decide)
          | exact absurd (he e he') (by rw [← h]; decide)
    · intro hrel
      exact Or.inr (Or.inl ⟨hrel, rfl⟩)
  · rw [hbase, mem_cargoTail]
    constructor
    · rintro ((h | h) | ⟨_, h⟩ | ⟨m, hm', h | h⟩ | ⟨b, hb', h | h⟩ |
          ⟨e, he', h | h⟩) <;>
        first
          | exact absurd h (by decide)
          | (rw [hm']; rfl)
          | exact absurd (hm m hm') (by rw [← h]; decide)
          | exact absurd (hb b hb') (by rw [← h]; decide)
          | exact absurd (he e he') (by rw [← h]; decide)
    · intro hsome
      obtain ⟨m, hm'⟩ := Option.isSome_iff_exists.mp hsome
      exact Or.inr (Or.inr (Or.inl ⟨m, hm', Or.inl rfl⟩))
  · rw [hbase, mem_cargoTail]
    constructor
    · rintro ((h | h) | ⟨_, h⟩ | ⟨m, hm', h | h⟩ | ⟨b, hb', h | h⟩ |
          ⟨e, he', h | h⟩) <;>
        first
          | exact absurd h (by decide)
          | (rw [hb']; rfl)
          | exact absurd (hm m hm') (by rw [← h]; decide)
          | exact absurd (hb b hb') (by rw [← h]; decide)
          | exact absurd (he e he') (by rw [← h]; decide)
    · intro hsome
      obtain ⟨b, hb'⟩ := Option.isSome_iff_exists.mp hsome
      exact Or.inr (Or.inr (Or.inr (Or.inl ⟨b, hb', Or.inl rfl⟩)))
  · rw [hbase, mem_cargoTail]
    constructor
    · rintro ((h | h) | ⟨_, h⟩ | ⟨m, hm', h | h⟩ | ⟨b, hb', h | h⟩ |
          ⟨e, he', h | h⟩) <;>
        first
          | exact absurd h (by decide)
          | (rw [he']; rfl)
          | exact absurd (hm m hm') (by rw [← h]; decide)
          | exact absurd (hb b hb') (by rw [← h]; decide)
          | exact absurd (he e he') (by rw [← h]; decide)
    · intro hsome
      obtain ⟨e, he'⟩ := Option.isSome_iff_exists.mp hsome
      exact Or.inr (Or.inr (Or.inr (Or.inr ⟨e, he', Or.inl rfl⟩)))

/-- When the manifest path is set, `--manifest-path <path>` occurs as a
contiguous pair in the synthesized invocation. -/
theorem manifest_pair_infix (r : BuildRequest) (m : String)
    (h : r.manifest = some m) :
    List.IsInfix ["--manifest-path", m] (cargoArgs r) := by
  refine ⟨["build", "--message-format=json"]
      ++ (if r.release then ["--release"] else []),
    (match r.bin with
      | some b => ["--bin", b]
      | none => [])
      ++ (match r.exampleArg with
          | some e => ["--example", e]
          | none => []), ?_⟩
  simp [cargoArgs, h, List.append_assoc]

/-- When the bin name is set, `--bin <name>` occurs as a contiguous pair in
the synthesized invocation. -/
theorem bin_pair_infix (r : BuildRequest) (b : String) (h : r.bin = some b) :
    List.IsInfix ["--bin", b] (cargoArgs r) := by
  refine ⟨["build", "--message-format=json"]
      ++ (if r.release then ["--release"] else [])
      ++ (match r.manifest with
          | some m => ["--manifest-path", m]
          | none => []),
    (match r.exampleArg with
      | some e => ["--example", e]
      | none => []), ?_⟩
  simp [cargoArgs, h, List.append_assoc]

/-- When the example name is set, `--example <name>` occurs as a contiguous
pair in the synthesized invocation. -/
theorem example_pair_infix (r : BuildRequest) (e : String)
    (h : r.exampleArg = some e) :
    List.IsInfix ["--example", e] (cargoArgs r) := by
  refine ⟨["build", "--message-format=json"]
      ++ (if r.release then ["--release"] else [])
      ++ (match r.manifest with
          | some m => ["--manifest-path", m]
          | none => [])
      ++ (match r.bin with
          | some b => ["--bin", b]
          | none => []),
    [], ?_⟩
  simp [cargoArgs, h, List.append_assoc]

/-- C8 counterexample: the claim quantifies over every BuildRequest, but a
request whose manifest path is the literal string `build` makes the token
`build` occur twice in the synthesized invocation
(`["build", "--message-format=json", "--manifest-path", "build"]`). -/
theorem c8_counterexample :
    (cargoArgs ⟨false, some "build", none, none⟩).count "build" = 2 := by
  decide

/-- C8 amended: for every BuildRequest whose user-supplied manifest path,
bin name and example name are none of the fixed tokens, the synthesized
invocation contains `build` and `--message-format=json` exactly once each,
contains `--release` iff the release flag was set, and contains the
contiguous pair `--manifest-path <path>` / `--bin <name>` /
`--example <name>` iff the corresponding field was provided. -/
theorem c8_amended_invocation_shape (r : BuildRequest)
    (hm : ∀ m, r.manifest = some m → m ∉ cargoFixedTokens)
    (hb : ∀ b, r.bin = some b → b ∉ cargoFixedTokens)
    (he : ∀ e, r.exampleArg = some e → e ∉ cargoFixedTokens) :
    (cargoArgs r).count "build" = 1
    ∧ (cargoArgs r).count "--message-format=json" = 1
    ∧ ("--release" ∈ cargoArgs r ↔ r.release = true)
    ∧ ("--manifest-path" ∈ cargoArgs r ↔ r.manifest.isSome = true)
    ∧ (∀ m, r.manifest = some m →
        List.IsInfix ["--manifest-path", m] (cargoArgs r))
    ∧ ("--bin" ∈ cargoArgs r ↔ r.bin.isSome = true)
    ∧ (∀ b, r.bin = some b → List.IsInfix ["--bin", b] (cargoArgs r))
    ∧ ("--example" ∈ cargoArgs r ↔ r.exampleArg.isSome = true)
    ∧ (∀ e, r.exampleArg = some e →
        List.IsInfix ["--example", e] (cargoArgs r)) := by
  obtain ⟨hrel, hman, hbin, hex⟩ := flag_mem_cargoArgs_iff r hm hb he
  have hcount : ∀ s : String, s = "build" ∨ s = "--message-format=json" →
      (cargoTail r).count s = 0 := fun s hs =>
    List.count_eq_zero.mpr (base_token_not_mem_cargoTail r hm hb he s hs)
  refine ⟨?_, ?_, hrel, hman, fun m h => manifest_pair_infix r m h, hbin,
    fun b h => bin_pair_infix r b h, hex,
    fun e h => example_pair_infix r e h⟩
  · rw [cargoArgs_eq_shape, List.count_append, hcount "build" (Or.inl rfl)]
    decide
  · rw [cargoArgs_eq_shape, List.count_append,
      hcount "--message-format=json" (Or.inr rfl)]
    decide

/-- Witness for C8 at a concrete request with release set and all three
values provided. -/
theorem c8_amended_invocation_shape_witness :
    (cargoArgs ⟨true, some "crates/app/Cargo.toml", some "mybin",
        some "myexample"⟩).count "build" = 1
    ∧ "--release" ∈ cargoArgs ⟨true, some "crates/app/Cargo.toml",
        some "mybin", some "myexample"⟩ :=
  ⟨(c8_amended_invocation_shape
      ⟨true, some "crates/app/Cargo.toml", some "mybin", some "myexample"⟩
      (by intro m h; cases h; decide) (by intro b h; cases h; decide)
      (by intro e h; cases h; decide)).1,
   ((c8_amended_invocation_shape
      ⟨true, some "crates/app/Cargo.toml", some "mybin", some "myexample"⟩
      (by intro m h; cases h; decide) (by intro b h; cases h; decide)
      (by intro e h; cases h; decide)).2.2.1).mpr rfl⟩

end CargoDebug
